import Mathlib

/-!
Verification development for the Zabbix web service PDF report creator
(`src/go/cmd/zabbix_web_service/pdf_report_creator.go`).

The Go code is shallowly embedded: pure helpers become Lean functions,
the HTTP handler `report` becomes a function from the results of its
external effects (peer check, body read, JSON unmarshal, the value read
from the chromedp response channel) to the ordered list of observable
events it performs (creating the exec allocator and browser context,
starting the CDP run, writing an error response, writing the PDF).
Machine integers are modelled as `Nat`/`Int` with explicit bounds where
Go's `strconv` semantics depend on them; Go errors are modelled by their
message strings; fallible code returns `Option`/`Except`.

Functions of the Go standard library that the handler calls
(`strconv.ParseInt`, `net/url.Parse`, `net/http` cookie parsing) are
embedded from their stdlib sources; simplifications are noted in the
doc comment of each definition.
-/

set_option maxRecDepth 8192

namespace ZbxPdfReport

/-! ## Generic character and list helpers -/

instance instDecEqExcept {ε α : Type} [DecidableEq ε] [DecidableEq α] :
    DecidableEq (Except ε α) := fun a b =>
  match a, b with
  | Except.error e, Except.error f => decidable_of_iff (e = f) (by simp)
  | Except.error _, Except.ok _ => isFalse (fun hc => Except.noConfusion hc)
  | Except.ok _, Except.error _ => isFalse (fun hc => Except.noConfusion hc)
  | Except.ok x, Except.ok y => decidable_of_iff (x = y) (by simp)

/-- Character class `'A'..'Z'` or `'a'..'z'` (ASCII letters, byte-level as in Go). -/
def isAlphaByte (c : Char) : Bool :=
  decide ((65 ≤ c.toNat ∧ c.toNat ≤ 90) ∨ (97 ≤ c.toNat ∧ c.toNat ≤ 122))

/-- Character class `'0'..'9'`. -/
def isDigitByte (c : Char) : Bool :=
  decide (48 ≤ c.toNat ∧ c.toNat ≤ 57)

/-- Does the list `l` start with the list `p`? (model of Go `strings.HasPrefix` on rune lists). -/
def listStarts {α : Type} [DecidableEq α] : List α → List α → Bool
  | _, [] => true
  | [], _ :: _ => false
  | a :: l, b :: p => a = b && listStarts l p

/-- Does the list `l` end with the list `p`? (model of Go `strings.HasSuffix`). -/
def listEnds {α : Type} [DecidableEq α] (l p : List α) : Bool :=
  listStarts l.reverse p.reverse

/-- Index of the first occurrence of `c` (model of Go `strings.Index` for a one-byte needle). -/
def charIdx (c : Char) : List Char → Option Nat
  | [] => none
  | a :: rest => if a = c then some 0 else (charIdx c rest).map (· + 1)

/-- Index of the last occurrence of `c` (model of Go `strings.LastIndex` for a one-byte needle). -/
def lastIdxChar (c : Char) (l : List Char) : Option Nat :=
  match charIdx c l.reverse with
  | none => none
  | some i => some (l.length - 1 - i)

/-- Does `c` occur in `l`? (model of Go `strings.Contains` for a one-byte needle). -/
def containsChar (c : Char) (l : List Char) : Bool :=
  (charIdx c l).isSome

/-- Result of Go `strings.Cut` at the first occurrence of a one-byte separator. -/
structure CutRes where
  before : List Char
  after : List Char
  found : Bool
  deriving DecidableEq

/-- Model of Go `strings.Cut(s, sep)` for a one-byte separator `c`. -/
def cutChar (c : Char) (l : List Char) : CutRes :=
  match charIdx c l with
  | some i => ⟨l.take i, l.drop (i + 1), true⟩
  | none => ⟨l, [], false⟩

/-- Split a list at every occurrence of the separator `c`.  Iterating Go
`strings.Cut(line, sep)` until the line is exhausted visits exactly the
chunks between occurrences of `sep`, which is what this structural version
computes (the result is never empty; an empty input gives one empty chunk,
which every caller of this model skips). -/
def splitOnChar (c : Char) : List Char → List (List Char)
  | [] => [[]]
  | a :: rest =>
    if a = c then [] :: splitOnChar c rest
    else
      match splitOnChar c rest with
      | p :: ps => (a :: p) :: ps
      | [] => [[a]]

/-- Is `c` a space or horizontal tab? (the cutset of `textproto.TrimString`). -/
def isSPHT (c : Char) : Bool :=
  decide (c.toNat = 32 ∨ c.toNat = 9)

/-- Model of Go `textproto.TrimString`: trim leading and trailing spaces and tabs. -/
def trimST (l : List Char) : List Char :=
  ((l.dropWhile isSPHT).reverse.dropWhile isSPHT).reverse

/-- ASCII lowercase of one character (the ASCII fragment of Go `strings.ToLower`). -/
def asciiLowerChar (c : Char) : Char :=
  if decide (65 ≤ c.toNat ∧ c.toNat ≤ 90) then Char.ofNat (c.toNat + 32) else c

/-- ASCII lowercase of a string.  Models Go `strings.ToLower`; the URLs this
program lowercases are schemes, which are ASCII, so the Unicode cases of the
Go function are not modelled. -/
def asciiLower (s : String) : String :=
  String.mk (s.toList.map asciiLowerChar)

/-- The one-character string containing the ASCII double quote. -/
def dq : String := String.singleton (Char.ofNat 34)

/-- The one-character string containing the ASCII single quote. -/
def sq : String := String.singleton (Char.ofNat 39)

/-- Wrap a string in double quotes.  This is how the handler's
`fmt.Sprintf` format strings with a `\"%s\"` pattern render a value. -/
def quoteWrap (s : String) : String := dq ++ s ++ dq

/-- Escape one character the way Go `strconv.Quote` does, restricted to the
printable ASCII range actually reachable in this program's messages: the
double quote and the backslash get a backslash; other printable ASCII
characters are kept; remaining characters are kept verbatim (Go would use
an escape sequence for them, which no input of interest contains). -/
def goQuoteChar (c : Char) : List Char :=
  if decide (c.toNat = 34 ∨ c.toNat = 92) then [Char.ofNat 92, c] else [c]

/-- Model of Go `strconv.Quote` (`%q`) for the printable-ASCII strings this
program quotes. -/
def goQuote (s : String) : String :=
  dq ++ String.mk (s.toList.flatMap goQuoteChar) ++ dq

/-- Does the contiguous run `sub` occur inside `l`? (substring occurrence). -/
def listHasRun {α : Type} [DecidableEq α] (sub : List α) : List α → Bool
  | [] => sub.isEmpty
  | a :: rest => listStarts (a :: rest) sub || listHasRun sub rest

/-- Does the string `sub` occur as a substring of `s`? -/
def strHasRun (s sub : String) : Bool :=
  listHasRun sub.toList s.toList

theorem listStarts_append {α : Type} [DecidableEq α] (l r sub : List α)
    (h : listStarts l sub = true) : listStarts (l ++ r) sub = true := by
  induction sub generalizing l with
  | nil => simp [listStarts]
  | cons b p ih =>
    cases l with
    | nil => simp [listStarts] at h
    | cons a l' =>
      simp only [listStarts, Bool.and_eq_true] at h ⊢
      exact ⟨h.1, ih l' h.2⟩

theorem listHasRun_append_right {α : Type} [DecidableEq α] (sub l r : List α)
    (h : listHasRun sub l = true) : listHasRun sub (l ++ r) = true := by
  induction l with
  | nil =>
    simp [listHasRun] at h
    simp [h, listHasRun]
    cases r with
    | nil => simp [listHasRun]
    | cons x xs => simp [listHasRun, listStarts]
  | cons a rest ih =>
    simp only [listHasRun, Bool.or_eq_true] at h
    cases h with
    | inl hs =>
      simp only [List.cons_append, listHasRun, Bool.or_eq_true]
      exact Or.inl (listStarts_append _ r sub hs)
    | inr hr =>
      simp only [List.cons_append, listHasRun, Bool.or_eq_true]
      exact Or.inr (ih hr)

theorem stringData_append (s t : String) : (s ++ t).data = s.data ++ t.data := by
  cases s; cases t; rfl

/-- If `sub` occurs in `s`, it occurs in `s ++ t`. -/
theorem strHasRun_append_left (s t sub : String) (h : strHasRun s sub = true) :
    strHasRun (s ++ t) sub = true := by
  unfold strHasRun at h ⊢
  have : (s ++ t).toList = s.toList ++ t.toList := stringData_append s t
  rw [this]
  exact listHasRun_append_right _ _ _ h

/-! ## Model of `strconv.ParseInt(s, 10, 64)` -/

/-- The two error kinds of Go `strconv` number parsing. -/
inductive NumError where
  | syntaxErr
  | rangeErr
  deriving DecidableEq

/-- Error message of a `*strconv.NumError` returned by `ParseInt`
(`strconv.ParseInt: parsing <quoted>: invalid syntax / value out of range`). -/
def numErrorMsg (num : String) : NumError → String
  | NumError.syntaxErr => "strconv.ParseInt: parsing " ++ goQuote num ++ ": invalid syntax"
  | NumError.rangeErr => "strconv.ParseInt: parsing " ++ goQuote num ++ ": value out of range"

/-- `maxUint64`, the `maxVal` of `strconv.ParseUint` at `bitSize` 64. -/
def maxUint64 : Nat := 2 ^ 64 - 1

/-- The base-10 `cutoff` of `strconv.ParseUint`: smallest `n` such that `n * 10` overflows. -/
def cutoff10 : Nat := maxUint64 / 10 + 1

/-- The digit-consuming loop of Go `strconv.ParseUint(s, 10, 64)`: each byte
must be a decimal digit (otherwise syntax error); the accumulator is checked
against `cutoff` before the multiply and against `maxVal` after the add
(otherwise range error). -/
def parseUint64Loop : List Char → Nat → Except NumError Nat
  | [], n => Except.ok n
  | c :: cs, n =>
    if isDigitByte c then
      let d := c.toNat - 48
      if decide (cutoff10 ≤ n) then Except.error NumError.rangeErr
      else
        let n1 := n * 10 + d
        if decide (maxUint64 < n1) then Except.error NumError.rangeErr
        else parseUint64Loop cs n1
    else Except.error NumError.syntaxErr

/-- Model of Go `strconv.ParseUint(s, 10, 64)` (error kind only): empty input
is a syntax error, then the digit loop runs. -/
def parseUint64 (s : List Char) : Except NumError Nat :=
  if s.isEmpty then Except.error NumError.syntaxErr else parseUint64Loop s 0

/-- Model of Go `strconv.ParseInt(s, 10, 64)`: empty input is a syntax error;
one optional leading `+` or `-`; the rest parses as unsigned; the magnitude is
checked against `2^63` (`cutoff` of `ParseInt` at `bitSize` 64). -/
def parseInt64 (s : String) : Except NumError Int :=
  match s.toList with
  | [] => Except.error NumError.syntaxErr
  | c :: rest =>
    let neg : Bool := decide (c.toNat = 45)
    let digits := if decide (c.toNat = 43 ∨ c.toNat = 45) then rest else c :: rest
    match parseUint64 digits with
    | Except.error e => Except.error e
    | Except.ok un =>
      if neg then
        if decide (2 ^ 63 < un) then Except.error NumError.rangeErr
        else Except.ok (-(un : Int))
      else
        if decide (2 ^ 63 ≤ un) then Except.error NumError.rangeErr
        else Except.ok (un : Int)

/-! ## The error classifier `handleErr` and the pixel conversion -/

/-- The constant `netErrCertAuthorityInvalid` of the source file. -/
def netErrCertAuthorityInvalid : String := "net::ERR_CERT_AUTHORITY_INVALID"

/-- The TLS-guidance message of `handleErr`'s first case. -/
def tlsGuidanceMsg : String :=
  "Invalid certificate authority detected while loading dashboard. Fix TLS configuration or " ++
    "configure Zabbix web service to ignore TLS certificate errors when accessing " ++
    "frontend URL."

/-- The message of `handleErr`'s empty-text case. -/
def emptyErrTextMsg : String :=
  "network.EventLoadingFailed event with empty ErrorText was received while loading dashboard."

/-- The message of `handleErr`'s default case, embedding the raw error text. -/
def genericLoadFailMsg (errStr : String) : String :=
  "network.EventLoadingFailed event with ErrorText = " ++ sq ++ errStr ++ sq ++
    " was received while loading dashboard."

/-- Model of the source function `handleErr`: a `switch` on the error text of a
`network.EventLoadingFailed` event.  Go errors are modelled by their message
strings. -/
def handleErr (errStr : String) : String :=
  if errStr = netErrCertAuthorityInvalid then tlsGuidanceMsg
  else if errStr = "" then emptyErrTextMsg
  else genericLoadFailMsg errStr

/-- Model of the source function `pixels2inches`.  Go `float64` arithmetic is
modelled as exact rational arithmetic; the function multiplies by the literal
constant `0.0104166667`. -/
def pixels2inches (value : Int) : ℚ :=
  (value : ℚ) * 0.0104166667

/-! ## Model of `net/url` parsing

Embedded from the Go standard library sources of `net/url` (`Parse`,
`parse`, `getScheme`, `parseAuthority`, `parseHost`, `ParseQuery`,
`Hostname`), restricted as noted in each doc comment: percent-unescaping
validates and decodes `%XX` triples but does not reproduce the
mode-specific rejections of `unescape` (host-character validation, zone
handling), `ForceQuery` and `RawPath`/`OmitHost` bookkeeping are not
tracked, and userinfo is validated but discarded since the program never
reads it. -/

/-- A parsed URL: the fields of `net/url.URL` this program reads. -/
structure GoURL where
  scheme : String
  opq : String
  host : String
  path : String
  rawQuery : String
  fragment : String
  deriving DecidableEq

/-- Hex digit value (model of `net/url.unhex` plus its `ishex` guard). -/
def unhex (c : Char) : Option Nat :=
  if decide (48 ≤ c.toNat ∧ c.toNat ≤ 57) then some (c.toNat - 48)
  else if decide (97 ≤ c.toNat ∧ c.toNat ≤ 102) then some (c.toNat - 87)
  else if decide (65 ≤ c.toNat ∧ c.toNat ≤ 70) then some (c.toNat - 55)
  else none

/-- Percent-decoding core of `net/url.unescape`: a `%` must be followed by two
hex digits (otherwise the escape error), and when `plusSp` is set (query
components) `+` decodes to a space.  The mode-specific character rejections of
the Go function are not modelled. -/
def unescapeDecode (plusSp : Bool) : List Char → Option (List Char)
  | [] => some []
  | c :: rest =>
    if decide (c.toNat = 37) then
      match rest with
      | a :: b :: rest2 =>
        match unhex a, unhex b with
        | some ha, some hb =>
          match unescapeDecode plusSp rest2 with
          | some d => some (Char.ofNat (16 * ha + hb) :: d)
          | none => none
        | _, _ => none
      | _ => none
    else if plusSp && decide (c.toNat = 43) then
      match unescapeDecode plusSp rest with
      | some d => some (Char.ofNat 32 :: d)
      | none => none
    else
      match unescapeDecode plusSp rest with
      | some d => some (c :: d)
      | none => none

/-- Model of `net/url.stringContainsCTLByte`: any byte below `0x20` or equal
to `0x7f`. -/
def containsCTL (s : String) : Bool :=
  s.toList.any (fun c => decide (c.toNat < 32 ∨ c.toNat = 127))

/-- Outcome of the scheme scan of `net/url.getScheme`. -/
inductive SchemeScan where
  | noScheme
  | emptySchemeErr
  | found (scheme : String) (rest : String)
  deriving DecidableEq

/-- Loop of `net/url.getScheme`: letters may continue a scheme; digits and
`+`/`-`/`.` may continue but not start one; a colon terminates it (a colon
first is the `missing protocol scheme` error); any other byte means the whole
input is scheme-less.  `acc` holds the scheme bytes read so far, reversed. -/
def getSchemeLoop : List Char → List Char → SchemeScan
  | [], _ => SchemeScan.noScheme
  | c :: rest, acc =>
    if isAlphaByte c then getSchemeLoop rest (c :: acc)
    else if isDigitByte c || decide (c.toNat = 43 ∨ c.toNat = 45 ∨ c.toNat = 46) then
      if acc.isEmpty then SchemeScan.noScheme else getSchemeLoop rest (c :: acc)
    else if decide (c.toNat = 58) then
      if acc.isEmpty then SchemeScan.emptySchemeErr
      else SchemeScan.found (String.mk acc.reverse) (String.mk rest)
    else SchemeScan.noScheme

/-- Model of `net/url.getScheme` on a raw URL: either an error, or the scheme
(possibly empty, meaning none was found) and the remainder. -/
def getSchemeGo (rawURL : String) : Except String (String × String) :=
  match getSchemeLoop rawURL.toList [] with
  | SchemeScan.emptySchemeErr => Except.error "missing protocol scheme"
  | SchemeScan.noScheme => Except.ok ("", rawURL)
  | SchemeScan.found sch rest => Except.ok (sch, rest)

/-- Model of `net/url.validOptionalPort`: empty, or a colon followed by only
decimal digits. -/
def validOptionalPort (port : List Char) : Bool :=
  match port with
  | [] => true
  | c :: rest => decide (c.toNat = 58) && rest.all isDigitByte

/-- Unescape a host/path component, mapping a decoding failure to the escape
error (Go's `EscapeError` message is `invalid URL escape` followed by the bad
triple, which this model abbreviates to the fixed text). -/
def unescapeOrErr (l : List Char) : Except String String :=
  match unescapeDecode false l with
  | some d => Except.ok (String.mk d)
  | none => Except.error "invalid URL escape"

/-- Model of `net/url.parseHost`: bracketed hosts must close their bracket and
may carry a valid optional port after it; otherwise a final colon segment must
be a valid optional port; then the host is unescaped.  IPv6 zone handling is
not modelled. -/
def parseHost (host : List Char) : Except String String :=
  if listStarts host [Char.ofNat 91] then
    match lastIdxChar (Char.ofNat 93) host with
    | none => Except.error "missing ']' in host"
    | some i =>
      let colonPort := host.drop (i + 1)
      if ¬ validOptionalPort colonPort then
        Except.error ("invalid port " ++ goQuote (String.mk colonPort) ++ " after host")
      else unescapeOrErr host
  else
    match lastIdxChar (Char.ofNat 58) host with
    | some i =>
      let colonPort := host.drop i
      if ¬ validOptionalPort colonPort then
        Except.error ("invalid port " ++ goQuote (String.mk colonPort) ++ " after host")
      else unescapeOrErr host
    | none => unescapeOrErr host

/-- Model of `net/url.validUserinfo`: letters, digits, and the listed
punctuation bytes. -/
def validUserinfoChar (c : Char) : Bool :=
  isAlphaByte c || isDigitByte c ||
    ([45, 46, 95, 58, 126, 33, 36, 38, 39, 40, 41, 42, 43, 44, 59, 61, 37, 64] : List Nat).contains c.toNat

/-- Model of `net/url.parseAuthority`: the host is everything after the last
`@`; the userinfo before it must pass `validUserinfo`.  The parsed userinfo
itself is discarded (the program never reads it). -/
def parseAuthority (authority : List Char) : Except String String :=
  match lastIdxChar (Char.ofNat 64) authority with
  | none => parseHost authority
  | some i =>
    match parseHost (authority.drop (i + 1)) with
    | Except.error e => Except.error e
    | Except.ok host =>
      if ¬ (authority.take i).all validUserinfoChar then
        Except.error "net/url: invalid userinfo"
      else Except.ok host

/-- Model of `URL.setPath`: unescape the raw path (RawPath bookkeeping is not
tracked). -/
def setPathGo (p : List Char) : Except String String :=
  unescapeOrErr p

/-- Model of `net/url.parse(rawURL, viaRequest := false)`, the body of
`url.Parse` after the fragment has been cut off. -/
def urlParseInner (rawURL : String) : Except String GoURL :=
  if containsCTL rawURL then Except.error "net/url: invalid control character in URL"
  else if rawURL = "*" then
    Except.ok { scheme := "", opq := "", host := "", path := "*", rawQuery := "", fragment := "" }
  else
    match getSchemeGo rawURL with
    | Except.error e => Except.error e
    | Except.ok (scheme0, rest0) =>
      let scheme := asciiLower scheme0
      let restAll := rest0.toList
      let qm := Char.ofNat 63
      let cutQ :=
        if listEnds restAll [qm] && ¬ containsChar qm restAll.dropLast then
          (restAll.dropLast, ([] : List Char))
        else
          let c := cutChar qm restAll
          (c.before, c.after)
      let restL := cutQ.1
      let rawQuery := String.mk cutQ.2
      let slash := Char.ofNat 47
      if ¬ listStarts restL [slash] then
        if scheme ≠ "" then
          Except.ok { scheme, opq := String.mk restL, host := "", path := "",
                      rawQuery, fragment := "" }
        else
          let seg := (cutChar slash restL).before
          if containsChar (Char.ofNat 58) seg then
            Except.error "first path segment in URL cannot contain colon"
          else
            match setPathGo restL with
            | Except.error e => Except.error e
            | Except.ok path =>
              Except.ok { scheme := "", opq := "", host := "", path, rawQuery, fragment := "" }
      else
        if (scheme ≠ "" || ¬ listStarts restL [slash, slash, slash]) &&
            listStarts restL [slash, slash] then
          let afterSS := restL.drop 2
          let cutA :=
            match charIdx slash afterSS with
            | some i => (afterSS.take i, afterSS.drop i)
            | none => (afterSS, ([] : List Char))
          match parseAuthority cutA.1 with
          | Except.error e => Except.error e
          | Except.ok host =>
            match setPathGo cutA.2 with
            | Except.error e => Except.error e
            | Except.ok path =>
              Except.ok { scheme, opq := "", host, path, rawQuery, fragment := "" }
        else
          match setPathGo restL with
          | Except.error e => Except.error e
          | Except.ok path =>
            Except.ok { scheme, opq := "", host := "", path, rawQuery, fragment := "" }

/-- Model of `net/url.Parse`: cut the fragment, parse the rest, unescape the
fragment; errors are wrapped as `url.Error`, whose message is
`parse <quoted-url>: <inner error>`. -/
def urlParseGo (rawURL : String) : Except String GoURL :=
  let c := cutChar (Char.ofNat 35) rawURL.toList
  let inner :=
    match urlParseInner (String.mk c.before) with
    | Except.error e => Except.error e
    | Except.ok u =>
      if ¬ c.found then Except.ok u
      else
        match unescapeDecode false c.after with
        | some f => Except.ok { u with fragment := String.mk f }
        | none => Except.error "invalid URL escape"
  match inner with
  | Except.error e => Except.error ("parse " ++ goQuote rawURL ++ ": " ++ e)
  | Except.ok u => Except.ok u

/-- Model of `URL.Hostname` via `net/url.splitHostPort`: strip a valid
numeric port after the last colon, then strip surrounding brackets. -/
def hostnameGo (u : GoURL) : String :=
  let l := u.host.toList
  let noPort :=
    match lastIdxChar (Char.ofNat 58) l with
    | some i => if validOptionalPort (l.drop i) then l.take i else l
    | none => l
  let unbracketed :=
    if listStarts noPort [Char.ofNat 91] && listEnds noPort [Char.ofNat 93] then
      (noPort.drop 1).dropLast
    else noPort
  String.mk unbracketed

/-- Handling of one `key` chunk inside the loop of `net/url.ParseQuery`:
skip it if it contains `;` (Go records an error and drops the pair) or is
empty; cut at the first `=` and query-unescape both sides, skipping the pair
if either fails. -/
def parseQueryPart (key : List Char) : List (String × String) :=
  if containsChar (Char.ofNat 59) key then []
  else if key.isEmpty then []
  else
    let ce := cutChar (Char.ofNat 61) key
    match unescapeDecode true ce.before, unescapeDecode true ce.after with
    | some k, some v => [(String.mk k, String.mk v)]
    | _, _ => []

/-- The loop of `net/url.ParseQuery`: the query is cut at each `&` and every
chunk contributes at most one pair. -/
def parseQueryList (q : List Char) : List (String × String) :=
  (splitOnChar (Char.ofNat 38) q).flatMap parseQueryPart

/-- Model of `URL.Query().Get(key)`: the first value recorded for `key`, or
the empty string.  `Values.Get` returns the first element of the slice for
`key`, which is the value of the first pair with that key in parse order. -/
def queryGet (rawQuery : String) (key : String) : String :=
  match (parseQueryList rawQuery.toList).find? (fun p => p.1 == key) with
  | some p => p.2
  | none => ""

/-- Model of `URL.String()` for the URLs this program reassembles: scheme,
opaque part or `//host` plus path, then the raw query and fragment.  Userinfo,
`ForceQuery`, `OmitHost` and re-escaping are not modelled (the program's URLs
have already-escaped components). -/
def urlStringGo (u : GoURL) : String :=
  (if u.scheme ≠ "" then u.scheme ++ ":" else "") ++
    (if u.opq ≠ "" then u.opq
     else
       (if u.scheme ≠ "" ∨ u.host ≠ "" then
         (if u.host ≠ "" ∨ u.path ≠ "" then "//" else "") ++ u.host
        else "") ++ u.path) ++
    (if u.rawQuery ≠ "" then "?" ++ u.rawQuery else "") ++
    (if u.fragment ≠ "" then "#" ++ u.fragment else "")

/-! ## Model of `net/http` cookie parsing

Embedded from the Go standard library `net/http/cookie.go` (`readCookies`
with an empty filter, `isCookieNameValid`, `parseCookieValue`) as called by
`Request.Cookies()` on a single `Cookie` header line. -/

/-- Model of `httpguts.IsTokenRune`: the HTTP token character set used by
`isCookieNameValid`. -/
def isTokenChar (c : Char) : Bool :=
  isAlphaByte c || isDigitByte c ||
    ([33, 35, 36, 37, 38, 39, 42, 43, 45, 46, 94, 95, 96, 124, 126] : List Nat).contains c.toNat

/-- Model of `net/http.isCookieNameValid`: nonempty and all token characters. -/
def isCookieNameValid (name : List Char) : Bool :=
  ¬ name.isEmpty && name.all isTokenChar

/-- Model of `net/http.validCookieValueByte`: printable ASCII except double
quote, semicolon and backslash. -/
def validCookieValueByte (c : Char) : Bool :=
  decide (32 ≤ c.toNat ∧ c.toNat < 127 ∧ c.toNat ≠ 34 ∧ c.toNat ≠ 59 ∧ c.toNat ≠ 92)

/-- Model of `net/http.parseCookieValue` with `allowDoubleQuote`: strip one
pair of surrounding double quotes, then require every byte to be a valid
cookie value byte. -/
def parseCookieValue (raw : List Char) (allowDoubleQuote : Bool) : Option (List Char) :=
  let raw :=
    if allowDoubleQuote && decide (1 < raw.length) &&
        raw.head? == some (Char.ofNat 34) && raw.getLast? == some (Char.ofNat 34) then
      (raw.drop 1).dropLast
    else raw
  if raw.all validCookieValueByte then some raw else none

/-- Handling of one `;`-separated part inside the `readCookies` loop: trim it,
skip it if empty, cut at the first `=`, trim and validate the name, validate
the value; an accepted part contributes one `(name, value)` pair. -/
def cookiePairConsume (part0 : List Char) : List (String × String) :=
  let part := trimST part0
  if part.isEmpty then []
  else
    let c := cutChar (Char.ofNat 61) part
    let name := trimST c.before
    if ¬ isCookieNameValid name then []
    else
      match parseCookieValue c.after true with
      | some v => [(String.mk name, String.mk v)]
      | none => []

/-- Model of `net/http.readCookies` on the single header line this program
passes: trim the line, then cut it at each `;` and consume every part. -/
def readCookiesGo (line : String) : List (String × String) :=
  (splitOnChar (Char.ofNat 59) (trimST line.toList)).flatMap cookiePairConsume

/-! ## The repository's data model and functions -/

/-- Lookup in a Go `map[string]string` modelled as an association list:
a missing key yields the zero value `""`. -/
def mapGet (m : List (String × String)) (k : String) : String :=
  match m.find? (fun p => p.1 == k) with
  | some p => p.2
  | none => ""

/-- The source structure `requestBody` (`url`, `headers`, `parameters`). -/
structure requestBody where
  url : String
  header : List (String × String)
  parameters : List (String × String)
  deriving DecidableEq

/-- The source structure `reportSize`: report size in pixels (int64 fields). -/
structure reportSize where
  width : Int
  height : Int
  deriving DecidableEq

/-- The `network.CookieSameSite` values that can appear here. -/
inductive CookieSameSite where
  | strict
  | lax
  | unspecified
  deriving DecidableEq

/-- The fields of `network.CookieParam` the program sets. -/
structure CookieParam where
  name : String
  value : String
  url : String
  domain : String
  sameSite : CookieSameSite
  httpOnly : Bool
  deriving DecidableEq

/-- The source structure `reportReqParams`. -/
structure reportReqParams where
  cookieParams : List CookieParam
  size : reportSize
  url : String
  deriving DecidableEq

/-- The source structure `chromedpResp`: PDF bytes or an error (errors are
modelled by their message strings, byte slices by `List Nat`). -/
structure chromedpResp where
  data : List Nat
  err : Option String
  deriving DecidableEq

/-- Model of the source method `requestBody.httpCookiesGet`: build a request
with the single `Cookie` header taken from the body's header map and return
its parsed cookies. -/
def httpCookiesGet (b : requestBody) : List (String × String) :=
  readCookiesGo (mapGet b.header "Cookie")

/-- The cookie-translation loop of `report`: one `network.CookieParam` per
parsed cookie, with `URL` the raw request URL, `Domain` the parsed URL's
hostname, `SameSite` strict and `HTTPOnly` true. -/
def cookieParamsOf (b : requestBody) (u : GoURL) : List CookieParam :=
  (httpCookiesGet b).map (fun c =>
    { name := c.1, value := c.2, url := b.url, domain := hostnameGo u,
      sameSite := CookieSameSite.strict, httpOnly := true })

/-- Model of the source function `parseUrl`: reject the empty string, run
`url.Parse`, reject a parsed URL with an empty scheme. -/
def parseUrl (u : String) : Except String GoURL :=
  if u = "" then Except.error "url is empty"
  else
    match urlParseGo u with
    | Except.error e => Except.error e
    | Except.ok parsed =>
      if parsed.scheme = "" then Except.error "url is missing scheme"
      else Except.ok parsed

/-- Model of the body of `runCDP` after `chromedp.Run` has returned, as a
function of the observed values at its decision point: `listenerErr` (the
value stored by the load-failure listener, `none` if it never fired before
the check), `runErr` (the error returned by `chromedp.Run`, `none` on
success) and `out` (the captured PDF bytes).  The result is the ordered list
of values sent on the response channel. -/
def runCDPSends (listenerErr : Option String) (runErr : Option String)
    (out : List Nat) : List chromedpResp :=
  match listenerErr with
  | some le => [{ data := [], err := some le }]
  | none =>
    match runErr with
    | some e => [{ data := [], err := some e }]
    | none => [{ data := out, err := none }]

/-- The single value `runCDP` sends (the head of `runCDPSends`).  The default
is irrelevant: `runCDPSends` is never empty. -/
def runCDPSent (listenerErr runErr : Option String) (out : List Nat) : chromedpResp :=
  (runCDPSends listenerErr runErr out).headD { data := [], err := none }

/-- Model of the external SDK call
`errs.WrapConst(err, zbxerr.ErrorCannotFetchData).Error()` used by the
handler on a channel error: the constant text of `zbxerr.ErrorCannotFetchData`
followed by the wrapped error's message.  The exact separator of the external
`errs` package is modelled as `: `; the claims only rely on the wrapped
message being embedded. -/
def wrapCannotFetchData (inner : String) : String :=
  "Cannot fetch data.: " ++ inner

/-- The observable actions of the `report` handler, in program order. -/
inductive HEvent where
  | wroteError (status : Nat) (detail : String)
  | createdExecAllocator
  | createdBrowserContext
  | ranCDP (params : reportReqParams)
  | wrotePDF (data : List Nat)
  deriving DecidableEq

/-- The results of the `report` handler's external effects, fixing one
execution: the outcome of `net.SplitHostPort` on the remote address (its
error message if it failed), the peer allow-list check, the HTTP method and
content type, whether `ioutil.ReadAll` failed, the outcome of
`json.Unmarshal` (the written error detail if it failed, otherwise the
decoded body), and the value received from the chromedp response channel. -/
structure ReportEnv where
  splitHostPortErr : Option String
  remoteAddr : String
  peerAllowed : Bool
  method : String
  contentType : String
  bodyReadErr : Bool
  unmarshalErr : Option String
  body : requestBody
  cdpResp : chromedpResp
  deriving DecidableEq

/-- Response handling at the end of `report`: a channel error is wrapped with
`zbxerr.ErrorCannotFetchData` and written with status 500, otherwise the PDF
bytes are written (a `Write` failure is only logged, which this model does
not track). -/
def reportRespond (resp : chromedpResp) : List HEvent :=
  match resp.err with
  | some e => [HEvent.wroteError 500 (wrapCannotFetchData e)]
  | none => [HEvent.wrotePDF resp.data]

/-- The validation stages of `report` that run after the exec allocator and
browser context have been created: width, height, URL parse, scheme, path
suffix, query action; then cookie translation, the CDP run and the response. -/
def reportValidate (env : ReportEnv) : List HEvent :=
  match parseInt64 (mapGet env.body.parameters "width") with
  | Except.error e =>
    [HEvent.wroteError 400
      ("Incorrect parameter width: " ++ numErrorMsg (mapGet env.body.parameters "width") e)]
  | Except.ok width =>
    match parseInt64 (mapGet env.body.parameters "height") with
    | Except.error e =>
      [HEvent.wroteError 400
        ("Incorrect parameter height: " ++ numErrorMsg (mapGet env.body.parameters "height") e)]
    | Except.ok height =>
      match parseUrl env.body.url with
      | Except.error e =>
        [HEvent.wroteError 400 ("Incorrect request url: " ++ e)]
      | Except.ok u =>
        if u.scheme ≠ "http" ∧ u.scheme ≠ "https" then
          [HEvent.wroteError 400 ("Unexpected URL scheme: " ++ quoteWrap u.scheme)]
        else if ¬ listEnds u.path.toList "/zabbix.php".toList then
          [HEvent.wroteError 400 ("Unexpected URL path: " ++ quoteWrap u.path)]
        else if queryGet u.rawQuery "action" ≠ "dashboard.print" then
          [HEvent.wroteError 400
            ("Unexpected URL action: " ++ quoteWrap (queryGet u.rawQuery "action"))]
        else
          HEvent.ranCDP
            { cookieParams := cookieParamsOf env.body u,
              size := { width := width, height := height },
              url := urlStringGo u } :: reportRespond env.cdpResp

/-- Model of the handler `report` as the ordered list of its observable
actions.  The order mirrors the source exactly: remote-address split, peer
check, method check, content-type check, body read, JSON unmarshal, creation
of the chromedp exec allocator and browser context, then the validation
stages of `reportValidate`. -/
def report (env : ReportEnv) : List HEvent :=
  match env.splitHostPortErr with
  | some e =>
    [HEvent.wroteError 500 ("Cannot remove port from host for incoming ip " ++ e ++ ".")]
  | none =>
    if ¬ env.peerAllowed then
      [HEvent.wroteError 500
        ("Cannot accept incoming connection for peer: " ++ env.remoteAddr ++ ".")]
    else if env.method ≠ "POST" then
      [HEvent.wroteError 405 "Method is not supported."]
    else if env.contentType ≠ "application/json" then
      [HEvent.wroteError 405 "Content Type is not application/json."]
    else if env.bodyReadErr then
      [HEvent.wroteError 500 "Can not read body data."]
    else
      match env.unmarshalErr with
      | some msg => [HEvent.wroteError 500 msg]
      | none =>
        HEvent.createdExecAllocator :: HEvent.createdBrowserContext :: reportValidate env

/-- The statuses of the error responses in a trace, in order. -/
def errorStatuses (tr : List HEvent) : List Nat :=
  tr.filterMap (fun ev =>
    match ev with
    | HEvent.wroteError s _ => some s
    | _ => none)

/-- Does the trace start a CDP run? -/
def startsCDP (tr : List HEvent) : Bool :=
  tr.any (fun ev =>
    match ev with
    | HEvent.ranCDP _ => true
    | _ => false)

/-! ## Stage lemmas about `report` -/

theorem listStarts_self {α : Type} [DecidableEq α] (l : List α) : listStarts l l = true := by
  induction l with
  | nil => rfl
  | cons a rest ih => simp [listStarts, ih]

theorem listHasRun_nil {α : Type} [DecidableEq α] (l : List α) :
    listHasRun ([] : List α) l = true := by
  cases l with
  | nil => rfl
  | cons a rest => simp [listHasRun, listStarts]

theorem listHasRun_middle {α : Type} [DecidableEq α] (pre sub post : List α) :
    listHasRun sub (pre ++ (sub ++ post)) = true := by
  induction pre with
  | nil =>
    cases hs : sub with
    | nil => simpa [hs] using listHasRun_nil (α := α) post
    | cons b bs =>
      have hstart : listStarts (sub ++ post) sub = true :=
        listStarts_append sub post sub (listStarts_self sub)
      rw [hs] at hstart
      simp only [List.cons_append] at hstart
      simp only [List.nil_append, List.cons_append, listHasRun, Bool.or_eq_true]
      exact Or.inl hstart
  | cons a rest ih =>
    simp only [List.cons_append, listHasRun, Bool.or_eq_true]
    exact Or.inr ih

/-- A quoted value occurs inside the message that embeds it. -/
theorem strHasRun_quoteWrap (pre s : String) :
    strHasRun (pre ++ quoteWrap s) s = true := by
  unfold strHasRun quoteWrap
  have h1 : (pre ++ (dq ++ s ++ dq)).data = (pre.data ++ dq.data) ++ (s.data ++ dq.data) := by
    rw [stringData_append, stringData_append, stringData_append]
    simp [List.append_assoc]
  show listHasRun s.data (pre ++ (dq ++ s ++ dq)).data = true
  rw [h1]
  exact listHasRun_middle (pre.data ++ dq.data) s.data dq.data

/-- After the six preliminary checks succeed, `report` creates the exec
allocator and the browser context and runs the validation stages. -/
theorem report_reaches_validate (env : ReportEnv)
    (h1 : env.splitHostPortErr = none) (h2 : env.peerAllowed = true)
    (h3 : env.method = "POST") (h4 : env.contentType = "application/json")
    (h5 : env.bodyReadErr = false) (h6 : env.unmarshalErr = none) :
    report env =
      HEvent.createdExecAllocator :: HEvent.createdBrowserContext :: reportValidate env := by
  unfold report
  rw [h1, h6]
  simp [h2, h3, h4, h5]

theorem reportValidate_width_err (env : ReportEnv) (e : NumError)
    (hw : parseInt64 (mapGet env.body.parameters "width") = Except.error e) :
    reportValidate env =
      [HEvent.wroteError 400
        ("Incorrect parameter width: " ++ numErrorMsg (mapGet env.body.parameters "width") e)] := by
  unfold reportValidate
  rw [hw]

theorem reportValidate_height_err (env : ReportEnv) (w : Int) (e : NumError)
    (hw : parseInt64 (mapGet env.body.parameters "width") = Except.ok w)
    (hh : parseInt64 (mapGet env.body.parameters "height") = Except.error e) :
    reportValidate env =
      [HEvent.wroteError 400
        ("Incorrect parameter height: " ++ numErrorMsg (mapGet env.body.parameters "height") e)] := by
  unfold reportValidate
  rw [hw, hh]

theorem reportValidate_url_err (env : ReportEnv) (w h : Int) (e : String)
    (hw : parseInt64 (mapGet env.body.parameters "width") = Except.ok w)
    (hh : parseInt64 (mapGet env.body.parameters "height") = Except.ok h)
    (hu : parseUrl env.body.url = Except.error e) :
    reportValidate env = [HEvent.wroteError 400 ("Incorrect request url: " ++ e)] := by
  unfold reportValidate
  rw [hw, hh, hu]

theorem reportValidate_scheme_err (env : ReportEnv) (w h : Int) (u : GoURL)
    (hw : parseInt64 (mapGet env.body.parameters "width") = Except.ok w)
    (hh : parseInt64 (mapGet env.body.parameters "height") = Except.ok h)
    (hu : parseUrl env.body.url = Except.ok u)
    (hs : u.scheme ≠ "http" ∧ u.scheme ≠ "https") :
    reportValidate env =
      [HEvent.wroteError 400 ("Unexpected URL scheme: " ++ quoteWrap u.scheme)] := by
  unfold reportValidate
  rw [hw, hh, hu]
  simp only [if_pos hs]

theorem reportValidate_path_err (env : ReportEnv) (w h : Int) (u : GoURL)
    (hw : parseInt64 (mapGet env.body.parameters "width") = Except.ok w)
    (hh : parseInt64 (mapGet env.body.parameters "height") = Except.ok h)
    (hu : parseUrl env.body.url = Except.ok u)
    (hs : ¬ (u.scheme ≠ "http" ∧ u.scheme ≠ "https"))
    (hp : listEnds u.path.toList "/zabbix.php".toList = false) :
    reportValidate env =
      [HEvent.wroteError 400 ("Unexpected URL path: " ++ quoteWrap u.path)] := by
  have hp' : ¬ listEnds u.path.toList "/zabbix.php".toList = true := by
    intro hc
    rw [hp] at hc
    exact Bool.false_ne_true hc
  unfold reportValidate
  rw [hw, hh, hu]
  dsimp only
  rw [if_neg hs, if_pos hp']

theorem reportValidate_action_err (env : ReportEnv) (w h : Int) (u : GoURL)
    (hw : parseInt64 (mapGet env.body.parameters "width") = Except.ok w)
    (hh : parseInt64 (mapGet env.body.parameters "height") = Except.ok h)
    (hu : parseUrl env.body.url = Except.ok u)
    (hs : ¬ (u.scheme ≠ "http" ∧ u.scheme ≠ "https"))
    (hp : listEnds u.path.toList "/zabbix.php".toList = true)
    (ha : queryGet u.rawQuery "action" ≠ "dashboard.print") :
    reportValidate env =
      [HEvent.wroteError 400
        ("Unexpected URL action: " ++ quoteWrap (queryGet u.rawQuery "action"))] := by
  have hp' : ¬ ¬ listEnds u.path.toList "/zabbix.php".toList = true := fun hc => hc hp
  unfold reportValidate
  rw [hw, hh, hu]
  dsimp only
  rw [if_neg hs, if_neg hp', if_pos ha]

theorem reportValidate_ok (env : ReportEnv) (w h : Int) (u : GoURL)
    (hw : parseInt64 (mapGet env.body.parameters "width") = Except.ok w)
    (hh : parseInt64 (mapGet env.body.parameters "height") = Except.ok h)
    (hu : parseUrl env.body.url = Except.ok u)
    (hs : ¬ (u.scheme ≠ "http" ∧ u.scheme ≠ "https"))
    (hp : listEnds u.path.toList "/zabbix.php".toList = true)
    (ha : queryGet u.rawQuery "action" = "dashboard.print") :
    reportValidate env =
      HEvent.ranCDP
        { cookieParams := cookieParamsOf env.body u,
          size := { width := w, height := h },
          url := urlStringGo u } :: reportRespond env.cdpResp := by
  have hp' : ¬ ¬ listEnds u.path.toList "/zabbix.php".toList = true := fun hc => hc hp
  have ha' : ¬ queryGet u.rawQuery "action" ≠ "dashboard.print" := fun hc => hc ha
  unfold reportValidate
  rw [hw, hh, hu]
  dsimp only
  rw [if_neg hs, if_neg hp', if_neg ha']

/-! ## Concrete scenario data -/

/-- The spec's concrete happy-path request body. -/
def scenarioBody : requestBody :=
  { url := "https://host/zabbix.php?action=dashboard.print",
    header := [("Cookie", "sid=abc")],
    parameters := [("width", "800"), ("height", "600")] }

/-- The parsed form of the scenario URL. -/
def scenarioURL : GoURL :=
  { scheme := "https", opq := "", host := "host", path := "/zabbix.php",
    rawQuery := "action=dashboard.print", fragment := "" }

/-- The CDP request parameters of the scenario. -/
def scenarioParams : reportReqParams :=
  { cookieParams :=
      [{ name := "sid", value := "abc",
         url := "https://host/zabbix.php?action=dashboard.print",
         domain := "host", sameSite := CookieSameSite.strict, httpOnly := true }],
    size := { width := 800, height := 600 },
    url := "https://host/zabbix.php?action=dashboard.print" }

/-- The scenario environment, parameterized by the value read from the
response channel. -/
def scenarioEnv (resp : chromedpResp) : ReportEnv :=
  { splitHostPortErr := none, remoteAddr := "127.0.0.1:45000", peerAllowed := true,
    method := "POST", contentType := "application/json", bodyReadErr := false,
    unmarshalErr := none, body := scenarioBody, cdpResp := resp }

/-! ## Claim theorems -/

/-- C1: for every execution of `runCDP` — whatever value the load-failure
listener left in `listenerErr`, whatever error `chromedp.Run` returned and
whatever bytes were captured — exactly one `chromedpResp` is sent on the
response channel, and it is either PDF data (no error) or an error with no
data, never both and never zero or two values. -/
theorem C1_runCDP_sends_exactly_one_response (listenerErr runErr : Option String)
    (out : List Nat) :
    (runCDPSends listenerErr runErr out).length = 1 ∧
      ∃ r, runCDPSends listenerErr runErr out = [r] ∧
        ((r.err = none ∧ r.data = out) ∨ (r.err.isSome = true ∧ r.data = [])) := by
  cases listenerErr with
  | some le => exact ⟨rfl, ⟨_, rfl, Or.inr ⟨rfl, rfl⟩⟩⟩
  | none =>
    cases runErr with
    | some e => exact ⟨rfl, ⟨_, rfl, Or.inr ⟨rfl, rfl⟩⟩⟩
    | none => exact ⟨rfl, ⟨_, rfl, Or.inl ⟨rfl, rfl⟩⟩⟩

/-- C2: when the load-failure listener has recorded an error before the
capture result is examined, `runCDP` sends that classified error regardless
of `chromedp.Run`'s own outcome (even a successful capture with PDF bytes is
discarded); for an empty `ErrorText` the classified error is the
empty-`ErrorText` message and the handler writes it (wrapped by the
cannot-fetch-data constant) with HTTP status 500. -/
theorem C2_listener_error_wins_empty_text_500 (x : String) (runErr : Option String)
    (out : List Nat) :
    runCDPSends (some x) runErr out = [{ data := [], err := some x }] ∧
    report (scenarioEnv (runCDPSent (some (handleErr "")) runErr out)) =
      [HEvent.createdExecAllocator, HEvent.createdBrowserContext,
       HEvent.ranCDP scenarioParams,
       HEvent.wroteError 500 (wrapCannotFetchData (handleErr ""))] ∧
    handleErr "" = emptyErrTextMsg ∧
    strHasRun (wrapCannotFetchData (handleErr "")) "empty ErrorText" = true := by
  refine ⟨rfl, ?_, rfl, by decide⟩
  have h : runCDPSent (some (handleErr "")) runErr out =
      { data := [], err := some (handleErr "") } := rfl
  rw [h]
  decide

/-- C3 counterexample: the claim says any text equal to the
certificate-authority-invalid signal regardless of casing yields the
TLS-guidance message, but `handleErr` matches the signal with a
case-sensitive `switch`: the upper-cased variant falls to the generic
branch and does not yield the TLS-guidance message. -/
theorem C3_counterexample_uppercase_not_tls :
    handleErr "NET::ERR_CERT_AUTHORITY_INVALID" =
      genericLoadFailMsg "NET::ERR_CERT_AUTHORITY_INVALID" ∧
    handleErr "NET::ERR_CERT_AUTHORITY_INVALID" ≠ tlsGuidanceMsg ∧
    handleErr netErrCertAuthorityInvalid = tlsGuidanceMsg := by
  refine ⟨by decide, by decide, by decide⟩

/-- C3 amended: `handleErr` is total and pure, and maps every input to
exactly one message, but the certificate-authority-invalid signal is matched
case-sensitively: the exact constant yields the TLS-guidance message, the
empty text yields the empty-`ErrorText` message, and every other text —
including differently-cased variants of the signal — yields the generic
message embedding the text. -/
theorem C3_classifier_total_case_sensitive (s : String)
    (hne : s ≠ netErrCertAuthorityInvalid) (hnb : s ≠ "") :
    handleErr s = genericLoadFailMsg s ∧
    handleErr netErrCertAuthorityInvalid = tlsGuidanceMsg ∧
    handleErr "" = emptyErrTextMsg := by
  refine ⟨?_, by decide, by decide⟩
  unfold handleErr
  rw [if_neg hne, if_neg hnb]

/-- Witness for C3: the amended classifier theorem applied at the concrete
text `x`. -/
theorem C3_classifier_witness :
    ("x" : String) ≠ netErrCertAuthorityInvalid ∧ ("x" : String) ≠ "" ∧
    handleErr "x" = genericLoadFailMsg "x" :=
  ⟨by decide, by decide,
    (C3_classifier_total_case_sensitive "x" (by decide) (by decide)).1⟩

/-- An execution whose request has an unparsable width parameter (used for
claim C4). -/
def envC4 : ReportEnv :=
  { splitHostPortErr := none, remoteAddr := "127.0.0.1:45001", peerAllowed := true,
    method := "POST", contentType := "application/json", bodyReadErr := false,
    unmarshalErr := none,
    body := { url := "https://host/zabbix.php?action=dashboard.print",
              header := [], parameters := [("width", "oops"), ("height", "600")] },
    cdpResp := { data := [], err := none } }

/-- C4 counterexample: the claim says no exec allocator or browser context
exists when a validation error response is written, but for a width-parse
failure the handler has already created both before it writes the error:
the trace starts with the allocator and context creations and only then
writes the 400 response. -/
theorem C4_counterexample_error_after_allocator :
    report envC4 =
      [HEvent.createdExecAllocator, HEvent.createdBrowserContext,
       HEvent.wroteError 400
         ("Incorrect parameter width: " ++ numErrorMsg "oops" NumError.syntaxErr)] ∧
    (report envC4).head? = some HEvent.createdExecAllocator := by
  refine ⟨by decide, by decide⟩

/-- C4 amended: body-read and JSON-unmarshal failures are reported before
the exec allocator or browser context is created (their traces contain no
creation event), while width/height/URL validation failures are reported
after both have been created — but in every validation-failure case no CDP
run is ever started. -/
theorem C4_amended_allocator_ordering (env : ReportEnv)
    (h1 : env.splitHostPortErr = none) (h2 : env.peerAllowed = true)
    (h3 : env.method = "POST") (h4 : env.contentType = "application/json") :
    (env.bodyReadErr = true → report env = [HEvent.wroteError 500 "Can not read body data."]) ∧
    (∀ m, env.bodyReadErr = false → env.unmarshalErr = some m →
      report env = [HEvent.wroteError 500 m]) ∧
    (env.bodyReadErr = false → env.unmarshalErr = none →
      ∀ s d, reportValidate env = [HEvent.wroteError s d] →
        report env = [HEvent.createdExecAllocator, HEvent.createdBrowserContext,
                      HEvent.wroteError s d] ∧
        startsCDP (report env) = false) := by
  refine ⟨?_, ?_, ?_⟩
  · intro h5
    unfold report
    rw [h1]
    simp [h2, h3, h4, h5]
  · intro m h5 h6
    unfold report
    rw [h1, h6]
    simp [h2, h3, h4, h5]
  · intro h5 h6 s d hv
    have hrep := report_reaches_validate env h1 h2 h3 h4 h5 h6
    rw [hv] at hrep
    exact ⟨hrep, by rw [hrep]; rfl⟩

/-- Witness for C4: the amended ordering theorem applied to the concrete
width-failure execution. -/
theorem C4_amended_witness :
    envC4.splitHostPortErr = none ∧ envC4.peerAllowed = true ∧
    envC4.method = "POST" ∧ envC4.contentType = "application/json" ∧
    envC4.bodyReadErr = false ∧ envC4.unmarshalErr = none ∧
    reportValidate envC4 =
      [HEvent.wroteError 400
        ("Incorrect parameter width: " ++ numErrorMsg "oops" NumError.syntaxErr)] ∧
    startsCDP (report envC4) = false := by
  refine ⟨rfl, rfl, rfl, rfl, rfl, rfl, by decide, ?_⟩
  exact ((C4_amended_allocator_ordering envC4 rfl rfl rfl rfl).2.2 rfl rfl 400
    ("Incorrect parameter width: " ++ numErrorMsg "oops" NumError.syntaxErr) (by decide)).2

/-- An execution whose request has the unparsable width parameter `abc`
(used for claim C5). -/
def envC5 : ReportEnv :=
  { splitHostPortErr := none, remoteAddr := "127.0.0.1:45002", peerAllowed := true,
    method := "POST", contentType := "application/json", bodyReadErr := false,
    unmarshalErr := none,
    body := { url := "https://host/zabbix.php?action=dashboard.print",
              header := [], parameters := [("width", "abc"), ("height", "600")] },
    cdpResp := { data := [], err := none } }

/-- C5 counterexample: the claim says width/height integer-parse failures
carry HTTP status 500, but the handler writes the width-parse failure with
status 400. -/
theorem C5_counterexample_width_maps_to_400 :
    errorStatuses (report envC5) = [400] ∧ (400 : Nat) ≠ 500 := by
  refine ⟨by decide, by decide⟩

/-- C5 amended: body-read and JSON-unmarshal failures carry HTTP status 500,
while width-parse, height-parse, URL-parse, scheme, path and query-action
failures all carry HTTP status 400. -/
theorem C5_amended_statuses (env : ReportEnv)
    (h1 : env.splitHostPortErr = none) (h2 : env.peerAllowed = true)
    (h3 : env.method = "POST") (h4 : env.contentType = "application/json") :
    (env.bodyReadErr = true → errorStatuses (report env) = [500]) ∧
    (∀ m, env.bodyReadErr = false → env.unmarshalErr = some m →
      errorStatuses (report env) = [500]) ∧
    (env.bodyReadErr = false → env.unmarshalErr = none →
      (∀ e, parseInt64 (mapGet env.body.parameters "width") = Except.error e →
        errorStatuses (report env) = [400]) ∧
      (∀ w e, parseInt64 (mapGet env.body.parameters "width") = Except.ok w →
        parseInt64 (mapGet env.body.parameters "height") = Except.error e →
        errorStatuses (report env) = [400]) ∧
      (∀ w h e, parseInt64 (mapGet env.body.parameters "width") = Except.ok w →
        parseInt64 (mapGet env.body.parameters "height") = Except.ok h →
        parseUrl env.body.url = Except.error e →
        errorStatuses (report env) = [400]) ∧
      (∀ w h u, parseInt64 (mapGet env.body.parameters "width") = Except.ok w →
        parseInt64 (mapGet env.body.parameters "height") = Except.ok h →
        parseUrl env.body.url = Except.ok u →
        u.scheme ≠ "http" ∧ u.scheme ≠ "https" →
        errorStatuses (report env) = [400]) ∧
      (∀ w h u, parseInt64 (mapGet env.body.parameters "width") = Except.ok w →
        parseInt64 (mapGet env.body.parameters "height") = Except.ok h →
        parseUrl env.body.url = Except.ok u →
        ¬ (u.scheme ≠ "http" ∧ u.scheme ≠ "https") →
        listEnds u.path.toList "/zabbix.php".toList = false →
        errorStatuses (report env) = [400]) ∧
      (∀ w h u, parseInt64 (mapGet env.body.parameters "width") = Except.ok w →
        parseInt64 (mapGet env.body.parameters "height") = Except.ok h →
        parseUrl env.body.url = Except.ok u →
        ¬ (u.scheme ≠ "http" ∧ u.scheme ≠ "https") →
        listEnds u.path.toList "/zabbix.php".toList = true →
        queryGet u.rawQuery "action" ≠ "dashboard.print" →
        errorStatuses (report env) = [400])) := by
  refine ⟨?_, ?_, ?_⟩
  · intro h5
    unfold report
    rw [h1]
    simp [h2, h3, h4, h5, errorStatuses]
  · intro m h5 h6
    unfold report
    rw [h1, h6]
    simp [h2, h3, h4, h5, errorStatuses]
  · intro h5 h6
    have hrep := report_reaches_validate env h1 h2 h3 h4 h5 h6
    refine ⟨?_, ?_, ?_, ?_, ?_, ?_⟩
    · intro e hw
      rw [hrep, reportValidate_width_err env e hw]
      rfl
    · intro w e hw hh
      rw [hrep, reportValidate_height_err env w e hw hh]
      rfl
    · intro w h e hw hh hu
      rw [hrep, reportValidate_url_err env w h e hw hh hu]
      rfl
    · intro w h u hw hh hu hs
      rw [hrep, reportValidate_scheme_err env w h u hw hh hu hs]
      rfl
    · intro w h u hw hh hu hs hp
      rw [hrep, reportValidate_path_err env w h u hw hh hu hs hp]
      rfl
    · intro w h u hw hh hu hs hp ha
      rw [hrep, reportValidate_action_err env w h u hw hh hu hs hp ha]
      rfl

/-- Witness for C5: the amended status theorem applied to the concrete
width-failure execution. -/
theorem C5_amended_witness :
    envC5.splitHostPortErr = none ∧ envC5.peerAllowed = true ∧
    envC5.method = "POST" ∧ envC5.contentType = "application/json" ∧
    envC5.bodyReadErr = false ∧ envC5.unmarshalErr = none ∧
    parseInt64 (mapGet envC5.body.parameters "width") = Except.error NumError.syntaxErr ∧
    errorStatuses (report envC5) = [400] := by
  refine ⟨rfl, rfl, rfl, rfl, rfl, rfl, by decide, ?_⟩
  exact ((C5_amended_statuses envC5 rfl rfl rfl rfl).2.2 rfl rfl).1
    NumError.syntaxErr (by decide)

/-- An execution whose request has the width parameter `abc` of the spec's
concrete scenario (used for claim C6). -/
def envC6 : ReportEnv :=
  { splitHostPortErr := none, remoteAddr := "127.0.0.1:45003", peerAllowed := true,
    method := "POST", contentType := "application/json", bodyReadErr := false,
    unmarshalErr := none,
    body := { url := "https://host/zabbix.php?action=dashboard.print",
              header := [("Cookie", "sid=abc")],
              parameters := [("width", "abc"), ("height", "600")] },
    cdpResp := { data := [], err := none } }

/-- C6: a request whose width parameter fails base-10 integer parsing is
answered with a 400 validation failure whose message names `width`, and a
height-parse failure likewise yields a 400 message naming `height`. -/
theorem C6_bad_size_parameter_names_field_400 (env : ReportEnv)
    (h1 : env.splitHostPortErr = none) (h2 : env.peerAllowed = true)
    (h3 : env.method = "POST") (h4 : env.contentType = "application/json")
    (h5 : env.bodyReadErr = false) (h6 : env.unmarshalErr = none) :
    (∀ e, parseInt64 (mapGet env.body.parameters "width") = Except.error e →
      report env = [HEvent.createdExecAllocator, HEvent.createdBrowserContext,
        HEvent.wroteError 400
          ("Incorrect parameter width: " ++ numErrorMsg (mapGet env.body.parameters "width") e)] ∧
      strHasRun
        ("Incorrect parameter width: " ++ numErrorMsg (mapGet env.body.parameters "width") e)
        "width" = true) ∧
    (∀ w e, parseInt64 (mapGet env.body.parameters "width") = Except.ok w →
      parseInt64 (mapGet env.body.parameters "height") = Except.error e →
      report env = [HEvent.createdExecAllocator, HEvent.createdBrowserContext,
        HEvent.wroteError 400
          ("Incorrect parameter height: " ++ numErrorMsg (mapGet env.body.parameters "height") e)] ∧
      strHasRun
        ("Incorrect parameter height: " ++ numErrorMsg (mapGet env.body.parameters "height") e)
        "height" = true) := by
  have hrep := report_reaches_validate env h1 h2 h3 h4 h5 h6
  refine ⟨?_, ?_⟩
  · intro e hw
    refine ⟨?_, strHasRun_append_left "Incorrect parameter width: " _ "width" (by decide)⟩
    rw [hrep, reportValidate_width_err env e hw]
  · intro w e hw hh
    refine ⟨?_, strHasRun_append_left "Incorrect parameter height: " _ "height" (by decide)⟩
    rw [hrep, reportValidate_height_err env w e hw hh]

/-- Witness for C6: the field-naming theorem applied to the scenario request
with `width = "abc"`. -/
theorem C6_bad_size_parameter_witness :
    envC6.splitHostPortErr = none ∧ envC6.peerAllowed = true ∧
    envC6.method = "POST" ∧ envC6.contentType = "application/json" ∧
    envC6.bodyReadErr = false ∧ envC6.unmarshalErr = none ∧
    parseInt64 (mapGet envC6.body.parameters "width") = Except.error NumError.syntaxErr ∧
    (report envC6 = [HEvent.createdExecAllocator, HEvent.createdBrowserContext,
      HEvent.wroteError 400
        ("Incorrect parameter width: " ++ numErrorMsg (mapGet envC6.body.parameters "width")
          NumError.syntaxErr)] ∧
     strHasRun
       ("Incorrect parameter width: " ++ numErrorMsg (mapGet envC6.body.parameters "width")
         NumError.syntaxErr)
       "width" = true) := by
  refine ⟨rfl, rfl, rfl, rfl, rfl, rfl, by decide, ?_⟩
  exact (C6_bad_size_parameter_names_field_400 envC6 rfl rfl rfl rfl rfl rfl).1
    NumError.syntaxErr (by decide)

/-- An execution whose request carries `width = "0"` and is otherwise the
spec's happy-path scenario (used for claim C7). -/
def envC7 : ReportEnv :=
  { splitHostPortErr := none, remoteAddr := "127.0.0.1:45004", peerAllowed := true,
    method := "POST", contentType := "application/json", bodyReadErr := false,
    unmarshalErr := none,
    body := { url := "https://host/zabbix.php?action=dashboard.print",
              header := [("Cookie", "sid=abc")],
              parameters := [("width", "0"), ("height", "600")] },
    cdpResp := { data := [1, 2, 3], err := none } }

/-- C7 counterexample: the claim says a width that does not denote a
positive integer fails validation and no render proceeds, but the handler
accepts `width = "0"` (`strconv.ParseInt` has no positivity check): the
execution writes no error and starts the CDP run with width 0. -/
theorem C7_counterexample_zero_width_renders :
    report envC7 =
      [HEvent.createdExecAllocator, HEvent.createdBrowserContext,
       HEvent.ranCDP
         { cookieParams :=
             [{ name := "sid", value := "abc",
                url := "https://host/zabbix.php?action=dashboard.print",
                domain := "host", sameSite := CookieSameSite.strict, httpOnly := true }],
           size := { width := 0, height := 600 },
           url := "https://host/zabbix.php?action=dashboard.print" },
       HEvent.wrotePDF [1, 2, 3]] ∧
    errorStatuses (report envC7) = [] ∧
    parseInt64 "0" = Except.ok 0 := by
  refine ⟨by decide, by decide, by decide⟩

/-- C7 amended: the report size passed to the CDP run is exactly the parsed
base-10 int64 pair — no clamping and no defaulting, and in particular zero
and negative values are accepted — while a width or height that fails
integer parsing is rejected with a 400 response and the CDP run never
starts. -/
theorem C7_amended_size_exact_no_positivity (env : ReportEnv)
    (h1 : env.splitHostPortErr = none) (h2 : env.peerAllowed = true)
    (h3 : env.method = "POST") (h4 : env.contentType = "application/json")
    (h5 : env.bodyReadErr = false) (h6 : env.unmarshalErr = none) :
    (∀ w h u, parseInt64 (mapGet env.body.parameters "width") = Except.ok w →
      parseInt64 (mapGet env.body.parameters "height") = Except.ok h →
      parseUrl env.body.url = Except.ok u →
      ¬ (u.scheme ≠ "http" ∧ u.scheme ≠ "https") →
      listEnds u.path.toList "/zabbix.php".toList = true →
      queryGet u.rawQuery "action" = "dashboard.print" →
      report env =
        HEvent.createdExecAllocator :: HEvent.createdBrowserContext ::
          HEvent.ranCDP
            { cookieParams := cookieParamsOf env.body u,
              size := { width := w, height := h },
              url := urlStringGo u } :: reportRespond env.cdpResp) ∧
    (∀ e, parseInt64 (mapGet env.body.parameters "width") = Except.error e →
      errorStatuses (report env) = [400] ∧ startsCDP (report env) = false) ∧
    (∀ w e, parseInt64 (mapGet env.body.parameters "width") = Except.ok w →
      parseInt64 (mapGet env.body.parameters "height") = Except.error e →
      errorStatuses (report env) = [400] ∧ startsCDP (report env) = false) := by
  have hrep := report_reaches_validate env h1 h2 h3 h4 h5 h6
  refine ⟨?_, ?_, ?_⟩
  · intro w h u hw hh hu hs hp ha
    rw [hrep, reportValidate_ok env w h u hw hh hu hs hp ha]
  · intro e hw
    have hv := reportValidate_width_err env e hw
    rw [hrep, hv]
    exact ⟨rfl, rfl⟩
  · intro w e hw hh
    have hv := reportValidate_height_err env w e hw hh
    rw [hrep, hv]
    exact ⟨rfl, rfl⟩

/-- Witness for C7: the amended theorem applied to the concrete execution
with `width = "0"`, showing the parsed zero width is used unchanged. -/
theorem C7_amended_witness :
    envC7.splitHostPortErr = none ∧ envC7.peerAllowed = true ∧
    envC7.method = "POST" ∧ envC7.contentType = "application/json" ∧
    envC7.bodyReadErr = false ∧ envC7.unmarshalErr = none ∧
    parseInt64 (mapGet envC7.body.parameters "width") = Except.ok 0 ∧
    parseInt64 (mapGet envC7.body.parameters "height") = Except.ok 600 ∧
    parseUrl envC7.body.url = Except.ok scenarioURL ∧
    report envC7 =
      HEvent.createdExecAllocator :: HEvent.createdBrowserContext ::
        HEvent.ranCDP
          { cookieParams := cookieParamsOf envC7.body scenarioURL,
            size := { width := 0, height := 600 },
            url := urlStringGo scenarioURL } :: reportRespond envC7.cdpResp := by
  refine ⟨rfl, rfl, rfl, rfl, rfl, rfl, by decide, by decide, by decide, ?_⟩
  exact (C7_amended_size_exact_no_positivity envC7 rfl rfl rfl rfl rfl rfl).1
    0 600 scenarioURL (by decide) (by decide) (by decide) (by decide) (by decide) (by decide)

/-- An execution whose request URL has no scheme (used for claim C8). -/
def envC8 : ReportEnv :=
  { splitHostPortErr := none, remoteAddr := "127.0.0.1:45005", peerAllowed := true,
    method := "POST", contentType := "application/json", bodyReadErr := false,
    unmarshalErr := none,
    body := { url := "example.com/zabbix.php?action=dashboard.print",
              header := [], parameters := [("width", "800"), ("height", "600")] },
    cdpResp := { data := [], err := none } }

/-- C8 counterexample: the claim says every URL validation failure carries
the offending value in its message, but a URL without a scheme is rejected
with the fixed message `Incorrect request url: url is missing scheme`,
which does not contain the offending URL. -/
theorem C8_counterexample_missing_scheme_message_lacks_value :
    report envC8 =
      [HEvent.createdExecAllocator, HEvent.createdBrowserContext,
       HEvent.wroteError 400 "Incorrect request url: url is missing scheme"] ∧
    strHasRun "Incorrect request url: url is missing scheme"
      "example.com/zabbix.php?action=dashboard.print" = false := by
  refine ⟨by decide, by decide⟩

/-- C8 amended: an empty URL, a URL missing its scheme, a scheme other than
http/https, a path not ending in `/zabbix.php` and a query action other than
`dashboard.print` each independently yield a distinct 400 validation failure
identifying the violated constraint, with no CDP run started; the scheme,
path and action messages embed the offending value, while the empty-URL and
missing-scheme failures carry fixed messages that do not embed the URL. -/
theorem C8_amended_url_validation (env : ReportEnv)
    (h1 : env.splitHostPortErr = none) (h2 : env.peerAllowed = true)
    (h3 : env.method = "POST") (h4 : env.contentType = "application/json")
    (h5 : env.bodyReadErr = false) (h6 : env.unmarshalErr = none)
    (w h : Int)
    (hw : parseInt64 (mapGet env.body.parameters "width") = Except.ok w)
    (hh : parseInt64 (mapGet env.body.parameters "height") = Except.ok h) :
    (env.body.url = "" →
      report env = [HEvent.createdExecAllocator, HEvent.createdBrowserContext,
        HEvent.wroteError 400 ("Incorrect request url: " ++ "url is empty")] ∧
      startsCDP (report env) = false) ∧
    (∀ u, env.body.url ≠ "" → urlParseGo env.body.url = Except.ok u → u.scheme = "" →
      report env = [HEvent.createdExecAllocator, HEvent.createdBrowserContext,
        HEvent.wroteError 400 ("Incorrect request url: " ++ "url is missing scheme")] ∧
      startsCDP (report env) = false) ∧
    (∀ u, parseUrl env.body.url = Except.ok u →
      u.scheme ≠ "http" → u.scheme ≠ "https" →
      report env = [HEvent.createdExecAllocator, HEvent.createdBrowserContext,
        HEvent.wroteError 400 ("Unexpected URL scheme: " ++ quoteWrap u.scheme)] ∧
      strHasRun ("Unexpected URL scheme: " ++ quoteWrap u.scheme) u.scheme = true ∧
      startsCDP (report env) = false) ∧
    (∀ u, parseUrl env.body.url = Except.ok u →
      ¬ (u.scheme ≠ "http" ∧ u.scheme ≠ "https") →
      listEnds u.path.toList "/zabbix.php".toList = false →
      report env = [HEvent.createdExecAllocator, HEvent.createdBrowserContext,
        HEvent.wroteError 400 ("Unexpected URL path: " ++ quoteWrap u.path)] ∧
      strHasRun ("Unexpected URL path: " ++ quoteWrap u.path) u.path = true ∧
      startsCDP (report env) = false) ∧
    (∀ u, parseUrl env.body.url = Except.ok u →
      ¬ (u.scheme ≠ "http" ∧ u.scheme ≠ "https") →
      listEnds u.path.toList "/zabbix.php".toList = true →
      queryGet u.rawQuery "action" ≠ "dashboard.print" →
      report env = [HEvent.createdExecAllocator, HEvent.createdBrowserContext,
        HEvent.wroteError 400
          ("Unexpected URL action: " ++ quoteWrap (queryGet u.rawQuery "action"))] ∧
      strHasRun ("Unexpected URL action: " ++ quoteWrap (queryGet u.rawQuery "action"))
        (queryGet u.rawQuery "action") = true ∧
      startsCDP (report env) = false) ∧
    (("Incorrect request url: " ++ "url is empty" ≠
        "Incorrect request url: " ++ "url is missing scheme") ∧
     ("Incorrect request url: " ++ "url is empty" ≠
        "Unexpected URL scheme: " ++ quoteWrap "ftp") ∧
     ("Incorrect request url: " ++ "url is missing scheme" ≠
        "Unexpected URL scheme: " ++ quoteWrap "ftp") ∧
     ("Unexpected URL scheme: " ++ quoteWrap "ftp" ≠
        "Unexpected URL path: " ++ quoteWrap "/other.php") ∧
     ("Unexpected URL path: " ++ quoteWrap "/other.php" ≠
        "Unexpected URL action: " ++ quoteWrap "dashboard.list")) := by
  have hrep := report_reaches_validate env h1 h2 h3 h4 h5 h6
  refine ⟨?_, ?_, ?_, ?_, ?_, by decide⟩
  · intro hurl
    have hu : parseUrl env.body.url = Except.error "url is empty" := by
      unfold parseUrl
      rw [if_pos hurl]
    have hv := reportValidate_url_err env w h "url is empty" hw hh hu
    rw [hrep, hv]
    exact ⟨rfl, rfl⟩
  · intro u hne hpg hsch
    have hu : parseUrl env.body.url = Except.error "url is missing scheme" := by
      unfold parseUrl
      rw [if_neg hne, hpg]
      dsimp only
      rw [if_pos hsch]
    have hv := reportValidate_url_err env w h "url is missing scheme" hw hh hu
    rw [hrep, hv]
    exact ⟨rfl, rfl⟩
  · intro u hu hs1 hs2
    have hv := reportValidate_scheme_err env w h u hw hh hu ⟨hs1, hs2⟩
    rw [hrep, hv]
    exact ⟨rfl, strHasRun_quoteWrap "Unexpected URL scheme: " u.scheme, rfl⟩
  · intro u hu hs hp
    have hv := reportValidate_path_err env w h u hw hh hu hs hp
    rw [hrep, hv]
    exact ⟨rfl, strHasRun_quoteWrap "Unexpected URL path: " u.path, rfl⟩
  · intro u hu hs hp ha
    have hv := reportValidate_action_err env w h u hw hh hu hs hp ha
    rw [hrep, hv]
    exact ⟨rfl, strHasRun_quoteWrap "Unexpected URL action: " (queryGet u.rawQuery "action"), rfl⟩

/-- The parsed form of the ftp-scheme URL used by the C8 witness. -/
def ftpURL : GoURL :=
  { scheme := "ftp", opq := "", host := "host", path := "/zabbix.php",
    rawQuery := "action=dashboard.print", fragment := "" }

/-- An execution whose request URL has an ftp scheme (used for the C8
witness). -/
def envC8w : ReportEnv :=
  { splitHostPortErr := none, remoteAddr := "127.0.0.1:45006", peerAllowed := true,
    method := "POST", contentType := "application/json", bodyReadErr := false,
    unmarshalErr := none,
    body := { url := "ftp://host/zabbix.php?action=dashboard.print",
              header := [], parameters := [("width", "800"), ("height", "600")] },
    cdpResp := { data := [], err := none } }

/-- Witness for C8: the amended URL-validation theorem applied to the
concrete ftp-scheme execution. -/
theorem C8_amended_witness :
    envC8w.splitHostPortErr = none ∧ envC8w.peerAllowed = true ∧
    envC8w.method = "POST" ∧ envC8w.contentType = "application/json" ∧
    envC8w.bodyReadErr = false ∧ envC8w.unmarshalErr = none ∧
    parseInt64 (mapGet envC8w.body.parameters "width") = Except.ok 800 ∧
    parseInt64 (mapGet envC8w.body.parameters "height") = Except.ok 600 ∧
    parseUrl envC8w.body.url = Except.ok ftpURL ∧
    (report envC8w = [HEvent.createdExecAllocator, HEvent.createdBrowserContext,
       HEvent.wroteError 400 ("Unexpected URL scheme: " ++ quoteWrap ftpURL.scheme)] ∧
     strHasRun ("Unexpected URL scheme: " ++ quoteWrap ftpURL.scheme) ftpURL.scheme = true ∧
     startsCDP (report envC8w) = false) := by
  refine ⟨rfl, rfl, rfl, rfl, rfl, rfl, by decide, by decide, by decide, ?_⟩
  exact ((C8_amended_url_validation envC8w rfl rfl rfl rfl rfl rfl 800 600
    (by decide) (by decide)).2.2.1 ftpURL (by decide) (by decide) (by decide))

/-- C9: cookie translation produces one `network.CookieParam` per cookie pair
parsed from the `Cookie` header, each bound to the parsed URL's hostname with
same-site strict and HTTP-only set, and with the raw request URL; an empty or
absent `Cookie` header yields the empty cookie sequence (it is not an error);
the spec's concrete scenario produces exactly the single `sid` cookie. -/
theorem C9_cookie_translation (b : requestBody) (u : GoURL) :
    (∀ p, p ∈ cookieParamsOf b u →
      p.domain = hostnameGo u ∧ p.sameSite = CookieSameSite.strict ∧
      p.httpOnly = true ∧ p.url = b.url) ∧
    (cookieParamsOf b u).length = (httpCookiesGet b).length ∧
    (mapGet b.header "Cookie" = "" → cookieParamsOf b u = []) ∧
    cookieParamsOf scenarioBody scenarioURL =
      [{ name := "sid", value := "abc",
         url := "https://host/zabbix.php?action=dashboard.print",
         domain := "host", sameSite := CookieSameSite.strict, httpOnly := true }] ∧
    parseUrl "https://host/zabbix.php?action=dashboard.print" = Except.ok scenarioURL := by
  refine ⟨?_, ?_, ?_, by decide, by decide⟩
  · intro p hp
    unfold cookieParamsOf at hp
    rcases List.mem_map.mp hp with ⟨c, _, rfl⟩
    exact ⟨rfl, rfl, rfl, rfl⟩
  · unfold cookieParamsOf
    exact List.length_map _ _
  · intro hc
    unfold cookieParamsOf httpCookiesGet
    rw [hc]
    rfl

/-- Witness for C9: the cookie-translation theorem applied to the scenario
request and to a request with no `Cookie` header. -/
theorem C9_cookie_translation_witness :
    ({ name := "sid", value := "abc",
       url := "https://host/zabbix.php?action=dashboard.print",
       domain := "host", sameSite := CookieSameSite.strict, httpOnly := true } : CookieParam) ∈
      cookieParamsOf scenarioBody scenarioURL ∧
    ({ name := "sid", value := "abc",
       url := "https://host/zabbix.php?action=dashboard.print",
       domain := "host", sameSite := CookieSameSite.strict, httpOnly := true } : CookieParam).domain =
      hostnameGo scenarioURL ∧
    mapGet ({ url := "u", header := [], parameters := [] } : requestBody).header "Cookie" = "" ∧
    cookieParamsOf { url := "u", header := [], parameters := [] } scenarioURL = [] := by
  refine ⟨by decide, ?_, rfl, ?_⟩
  · exact ((C9_cookie_translation scenarioBody scenarioURL).1 _ (by decide)).1
  · exact (C9_cookie_translation { url := "u", header := [], parameters := [] }
      scenarioURL).2.2.1 rfl

/-- C10: the pixel-to-length conversion is exactly the linear map
multiplying by `0.0104166667` (float64 arithmetic modelled as exact rational
arithmetic), and it maps `0` to `0` and is additive. -/
theorem C10_pixels2inches_linear :
    (∀ v : Int, pixels2inches v = (v : ℚ) * 0.0104166667) ∧
    pixels2inches 0 = 0 ∧
    (∀ a b : Int, pixels2inches (a + b) = pixels2inches a + pixels2inches b) := by
  refine ⟨fun v => rfl, by simp [pixels2inches], fun a b => ?_⟩
  unfold pixels2inches
  push_cast
  ring

end ZbxPdfReport
